import Mathlib

/-!
Verification of the conjugate-update distribution core of myvue-bayes.

Shallow embedding conventions:
* Go float64 values are modelled as exact rationals; a NaN-tracking wrapper
  FQ (= Option ℚ, with none standing for NaN) is used on the code paths where
  the Go code can produce NaN (division by a zero count, variance of a single
  sample).  On every input considered in this development a zero divisor
  occurs only in the form 0/0, which is NaN in IEEE 754 as well, so mapping
  division by zero to the NaN marker is faithful here (a nonzero numerator
  over zero, which Go maps to an infinity, is never reached).
* math.Sqrt is modelled by Real.sqrt, so fields produced by a square root
  live in ℝ.
* The gonum stat functions called by the code (Mean, Variance, StdDev,
  Quantile with the Empirical cumulant kind) are embedded from their library
  implementations, since the repository calls them directly.
* The gonum quantile routine panics on an empty slice; the walk below
  returns none in that case, marking that no number is produced.
-/

/-- Go float64 with NaN tracking: some q is the finite value q, none is NaN. -/
abbrev FQ := Option ℚ

/-- Embed a finite rational as an FQ value. -/
def fnum (q : ℚ) : FQ := some q

/-- Float addition: NaN propagates. -/
def fadd : FQ → FQ → FQ
  | some a, some b => some (a + b)
  | _, _ => none

/-- Float subtraction: NaN propagates. -/
def fsub : FQ → FQ → FQ
  | some a, some b => some (a - b)
  | _, _ => none

/-- Float multiplication: NaN propagates. -/
def fmul : FQ → FQ → FQ
  | some a, some b => some (a * b)
  | _, _ => none

/-- Float division: NaN propagates; a zero divisor yields the NaN marker
(on the inputs arising here this only happens as 0/0, NaN in IEEE too). -/
def fdiv : FQ → FQ → FQ
  | some a, some b => if b = 0 then none else some (a / b)
  | _, _ => none

/-- Read an FQ value back as a real number; the NaN marker is sent to 0.
Only used under a square root whose argument is never NaN on the inputs
considered in this development. -/
def fqToReal : FQ → ℝ
  | some q => (q : ℝ)
  | none => 0

/-! ## gonum stat functions used by the summary engine (distributions/stat usage) -/

/-- gonum stat.Mean with nil weights: sum of the samples over their count
(0/0 = NaN on an empty slice). -/
def gonumMean (x : List ℚ) : FQ :=
  fdiv (fnum x.sum) (fnum (x.length : ℚ))

/-- gonum stat.MeanVariance with nil weights, variance component: the
compensated two-pass unbiased sample variance
(unnormalised - err*err/n) / (n - 1); for n = 1 this is 0/0 = NaN. -/
def gonumVariance (x : List ℚ) : FQ :=
  let mean := gonumMean x
  let err := x.foldl (fun acc v => fadd acc (fsub (fnum v) mean)) (fnum 0)
  let unnormalised :=
    x.foldl (fun acc v => fadd acc (fmul (fsub (fnum v) mean) (fsub (fnum v) mean))) (fnum 0)
  fdiv (fsub unnormalised (fdiv (fmul err err) (fnum (x.length : ℚ))))
    (fnum ((x.length : ℚ) - 1))

/-- gonum stat.StdDev: square root of the unbiased sample variance. -/
noncomputable def gonumStdDev (x : List ℚ) : ℝ :=
  Real.sqrt (fqToReal (gonumVariance x))

/-- The cumulative-weight walk of gonum empiricalQuantile: with unit weights,
return the first element whose cumulative count reaches fidx.  An exhausted
walk (only possible on an empty slice, where gonum panics) returns none. -/
def quantileWalk (fidx : ℚ) (cumsum : ℚ) : List ℚ → FQ
  | [] => none
  | a :: rest => if fidx ≤ cumsum + 1 then some a else quantileWalk fidx (cumsum + 1) rest

/-- gonum stat.Quantile with the Empirical cumulant kind and nil weights on a
sorted slice: the inverse empirical CDF step function, fidx = p * n. -/
def empiricalQuantile (p : ℚ) (x : List ℚ) : FQ :=
  quantileWalk (p * (x.length : ℚ)) 0 x

/-- slices.Sort: ascending sort of a slice, modelled extensionally as
insertion sort over ℚ. -/
def sortList (l : List ℚ) : List ℚ :=
  List.insertionSort (· ≤ ·) l

/-! ## Summary engine (distributions, ComputeSummary) -/

/-- Summary provides a statistical summary of a distribution. -/
structure Summary where
  Mean : FQ
  Median : FQ
  Mode : FQ
  Variance : FQ
  StdDev : ℝ
  CI95 : FQ × FQ
  CI99 : FQ × FQ
  Samples : List ℚ

/-- estimateMode: the placeholder mode estimator, returning the sample mean. -/
def estimateMode (samples : List ℚ) : FQ :=
  gonumMean samples

/-- ComputeSummary generates a statistical summary from samples: a fresh copy
of the input is sorted (the input itself is never passed to the sorting
routine), quantiles are read from the sorted copy at probabilities
0.5, 0.025, 0.975, 0.005, 0.995, and mean, variance, standard deviation
are computed from the unsorted input, which is also stored as Samples. -/
noncomputable def ComputeSummary (samples : List ℚ) : Summary :=
  let sorted := sortList samples
  { Mean := gonumMean samples
    Median := empiricalQuantile (1/2) sorted
    Mode := estimateMode samples
    Variance := gonumVariance samples
    StdDev := gonumStdDev samples
    CI95 := (empiricalQuantile (1/40) sorted, empiricalQuantile (39/40) sorted)
    CI99 := (empiricalQuantile (1/200) sorted, empiricalQuantile (199/200) sorted)
    Samples := samples }

/-! ## Beta distribution (distributions, beta file) -/

/-- Beta represents a Beta distribution; the embedded gonum distuv.Beta field
carries the same two parameters and adds only numeric routines external to
this repository, so the model keeps the two parameters. -/
structure Beta where
  Alpha : ℚ
  Beta : ℚ
deriving DecidableEq, Repr

/-- NewBeta creates a new Beta distribution; the Go function body performs no
parameter validation and its signature has no error path. -/
def NewBeta (alpha beta : ℚ) : Beta :=
  { Alpha := alpha, Beta := beta }

/-- Modelled from the spec: the constructor contract of section 4.2 of the
spec, under which NewBeta rejects alpha ≤ 0 or beta ≤ 0 as a domain error.
This follows the words of the spec, for comparison with NewBeta above. -/
def NewBetaSpec (alpha beta : ℚ) : Option Beta :=
  if alpha ≤ 0 ∨ beta ≤ 0 then none else some { Alpha := alpha, Beta := beta }

/-- Alias for the Beta structure, usable inside the Beta namespace where the
bare name would resolve to the field projection of the same name. -/
abbrev BetaDist := Beta

/-- Mode returns the mode(s) of the distribution (four-branch rule). -/
def Beta.Mode (b : BetaDist) : List ℚ :=
  if 1 < b.Alpha ∧ 1 < b.Beta then
    [(b.Alpha - 1) / (b.Alpha + b.Beta - 2)]
  else if b.Alpha < 1 ∧ b.Beta < 1 then
    [0, 1]
  else if b.Alpha < 1 ∧ 1 ≤ b.Beta then
    [0]
  else
    [1]

/-- BetaPosterior represents a Beta posterior distribution (embeds Beta). -/
structure BetaPosterior where
  toBeta : Beta
deriving DecidableEq, Repr

/-- Update performs the Bayesian update with binomial likelihood: each datum
strictly greater than 0 counts as a success. -/
def Beta.Update (b : BetaDist) (data : List ℚ) : BetaPosterior :=
  let successes : ℚ := data.countP (fun x => decide (0 < x))
  let trials : ℚ := data.length
  { toBeta := NewBeta (b.Alpha + successes) (b.Beta + trials - successes) }

/-- UpdateSingle updates with a single observation, branching on sign. -/
def Beta.UpdateSingle (b : BetaDist) (observation : ℚ) : BetaPosterior :=
  if 0 < observation then
    { toBeta := NewBeta (b.Alpha + 1) b.Beta }
  else
    { toBeta := NewBeta b.Alpha (b.Beta + 1) }

/-- BetaPosterior.CredibleInterval: quantiles of the posterior Beta at
(1-confidence)/2 and 1-(1-confidence)/2.  The quantile routine Q models
distuv.Beta.Quantile applied to the parameters of this posterior; it is
numeric library code external to the repository, so it is a parameter. -/
def BetaPosterior.CredibleInterval (bp : BetaPosterior) (Q : ℚ → ℚ → ℚ → ℝ)
    (confidence : ℚ) : ℝ × ℝ :=
  let alpha := (1 - confidence) / 2
  (Q bp.toBeta.Alpha bp.toBeta.Beta alpha, Q bp.toBeta.Alpha bp.toBeta.Beta (1 - alpha))

/-- BetaPosterior.HPD: the source returns the central credible interval. -/
def BetaPosterior.HPD (bp : BetaPosterior) (Q : ℚ → ℚ → ℚ → ℝ)
    (confidence : ℚ) : ℝ × ℝ :=
  bp.CredibleInterval Q confidence

/-! ## Normal-conjugate model (distributions, normal file) -/

/-- NormalConjugate: a Normal prior with location Mu, scale Sigma, and the
fixed observation variance KnownVariance.  The prior parameters are finite
inputs, modelled as exact rationals. -/
structure NormalConjugate where
  Mu : ℚ
  Sigma : ℚ
  KnownVariance : ℚ
deriving DecidableEq, Repr

/-- NormalPosterior: the Normal returned by the conjugate update.  Its Mu is
a float that can be NaN (hence FQ) and its Sigma is the output of math.Sqrt
(hence ℝ). -/
structure NormalPosterior where
  Mu : FQ
  Sigma : ℝ

/-- Update performs the conjugate update with Normal likelihood: sample mean
of the data, precision-weighted combination, posterior scale from the square
root of the inverse posterior precision.  No emptiness check is performed:
on empty data the sample mean is 0/0. -/
noncomputable def NormalConjugate.Update (nc : NormalConjugate) (data : List ℚ) :
    NormalPosterior :=
  let n : ℚ := data.length
  let sumX : ℚ := data.sum
  let xBar : FQ := fdiv (fnum sumX) (fnum n)
  let tau0 : FQ := fdiv (fnum 1) (fnum (nc.Sigma * nc.Sigma))
  let tau : FQ := fdiv (fnum 1) (fnum nc.KnownVariance)
  let tauNew : FQ := fadd tau0 (fmul (fnum n) tau)
  let muNew : FQ := fdiv (fadd (fmul tau0 (fnum nc.Mu)) (fmul (fmul (fnum n) tau) xBar)) tauNew
  let sigmaNew : ℝ := Real.sqrt (fqToReal (fdiv (fnum 1) tauNew))
  { Mu := muNew, Sigma := sigmaNew }

/-- UpdateSingle delegates to Update with a one-element sequence. -/
noncomputable def NormalConjugate.UpdateSingle (nc : NormalConjugate)
    (observation : ℚ) : NormalPosterior :=
  nc.Update [observation]

/-- NormalPosterior.CredibleInterval: quantiles of the posterior Normal at
(1-confidence)/2 and 1-(1-confidence)/2.  The quantile routine Q models
distuv.Normal.Quantile of this posterior, numeric library code external to
the repository, so it is a parameter. -/
def NormalPosterior.CredibleInterval (np : NormalPosterior) (Q : ℚ → ℝ)
    (confidence : ℚ) : ℝ × ℝ :=
  let alpha := (1 - confidence) / 2
  (Q alpha, Q (1 - alpha))

/-- NormalPosterior.HPD: the source returns the central credible interval. -/
def NormalPosterior.HPD (np : NormalPosterior) (Q : ℚ → ℝ)
    (confidence : ℚ) : ℝ × ℝ :=
  np.CredibleInterval Q confidence

/-- The sample sequence 1, 2, ..., 100 used by the summary regression test. -/
def l100 : List ℚ :=
  [1, 2, 3, 4, 5, 6, 7, 8, 9, 10, 11, 12, 13, 14, 15, 16, 17, 18, 19, 20, 21,
   22, 23, 24, 25, 26, 27, 28, 29, 30, 31, 32, 33, 34, 35, 36, 37, 38, 39, 40,
   41, 42, 43, 44, 45, 46, 47, 48, 49, 50, 51, 52, 53, 54, 55, 56, 57, 58, 59,
   60, 61, 62, 63, 64, 65, 66, 67, 68, 69, 70, 71, 72, 73, 74, 75, 76, 77, 78,
   79, 80, 81, 82, 83, 84, 85, 86, 87, 88, 89, 90, 91, 92, 93, 94, 95, 96, 97,
   98, 99, 100]

/-! ## Helper lemmas -/

lemma fmul_none_right (x : FQ) : fmul x none = none := by
  cases x <;> rfl

lemma fadd_none_right (x : FQ) : fadd x none = none := by
  cases x <;> rfl

lemma fsub_none_right (x : FQ) : fsub x none = none := by
  cases x <;> rfl

lemma fdiv_none_left (y : FQ) : fdiv none y = none := rfl

/-! ## Claim theorems -/

/-- C1: for every Beta prior with parameters alpha, beta and every data
sequence in which exactly k of the n entries are strictly greater than 0,
Beta.Update returns a BetaPosterior with parameters (alpha + k, beta + (n - k)). -/
theorem beta_update_conjugate (b : BetaDist) (data : List ℚ) (k : ℕ)
    (hk : data.countP (fun x => decide (0 < x)) = k) :
    b.Update data = ⟨⟨b.Alpha + k, b.Beta + ((data.length : ℚ) - k)⟩⟩ := by
  subst hk
  simp only [Beta.Update, NewBeta, BetaPosterior.mk.injEq, Beta.mk.injEq]
  refine ⟨by trivial, by ring⟩

/-- Witness for C1: prior Beta(1,1) on data [1,0,1] with 2 successes of 3
yields posterior parameters (3, 2). -/
theorem beta_update_conjugate_witness :
    List.countP (fun x => decide ((0:ℚ) < x)) [1, 0, 1] = 2 ∧
    Beta.Update ⟨1, 1⟩ [1, 0, 1] = ⟨⟨3, 2⟩⟩ :=
  ⟨by norm_num [List.countP, List.countP.go],
   (beta_update_conjugate ⟨1, 1⟩ [1, 0, 1] 2 (by norm_num [List.countP, List.countP.go])).trans
     (by norm_num [BetaPosterior.mk.injEq, Beta.mk.injEq])⟩

/-- C4: for every Beta prior and every single observation x, UpdateSingle x
produces numerically the same posterior parameters as Update [x], under the
coding that x strictly greater than 0 is a success. -/
theorem beta_updateSingle_equiv_update (b : BetaDist) (x : ℚ) :
    b.UpdateSingle x = b.Update [x] := by
  by_cases h : 0 < x <;>
    simp [Beta.UpdateSingle, Beta.Update, NewBeta, List.countP, List.countP.go, h,
      BetaPosterior.mk.injEq, Beta.mk.injEq]

/-- C5 counterexample: NewBeta(-1, 1) does not fail; it returns a Beta
carrying the invalid parameters, and that value is usable (its Update method
runs and produces a posterior), whereas the constructor contract written in
the spec (NewBetaSpec) rejects the same parameters. -/
theorem newBeta_no_validation_counterexample :
    NewBeta (-1) 1 = { Alpha := -1, Beta := 1 } ∧
    NewBetaSpec (-1) 1 = none ∧
    (NewBeta (-1) 1).Update [1] = ⟨⟨0, 1⟩⟩ := by
  refine ⟨rfl, by norm_num [NewBetaSpec], ?_⟩
  norm_num [Beta.Update, NewBeta, List.countP, List.countP.go,
    BetaPosterior.mk.injEq, Beta.mk.injEq]

/-- C5 amended: NewBeta performs no parameter validation; for alpha ≤ 0 or
beta ≤ 0 it still returns a Beta carrying exactly the given parameters. -/
theorem newBeta_accepts_nonpositive (alpha beta : ℚ) (h : alpha ≤ 0 ∨ beta ≤ 0) :
    NewBeta alpha beta = { Alpha := alpha, Beta := beta } :=
  rfl

/-- Witness for the amended C5: NewBeta(-1, 1) returns the parameter pair. -/
theorem newBeta_accepts_nonpositive_witness :
    ((-1 : ℚ) ≤ 0 ∨ (1 : ℚ) ≤ 0) ∧ NewBeta (-1) 1 = { Alpha := -1, Beta := 1 } :=
  ⟨Or.inl (by norm_num), newBeta_accepts_nonpositive (-1) 1 (Or.inl (by norm_num))⟩

/-- C8: Beta.Mode follows the four-case rule: interior mode
(alpha-1)/(alpha+beta-2) when alpha > 1 and beta > 1; the pair {0, 1} when
alpha < 1 and beta < 1; the single value 0 when alpha < 1 and beta ≥ 1; and
the single value 1 in every other case. -/
theorem beta_mode_cases (b : BetaDist) :
    (1 < b.Alpha ∧ 1 < b.Beta → b.Mode = [(b.Alpha - 1) / (b.Alpha + b.Beta - 2)]) ∧
    (b.Alpha < 1 ∧ b.Beta < 1 → b.Mode = [0, 1]) ∧
    (b.Alpha < 1 ∧ 1 ≤ b.Beta → b.Mode = [0]) ∧
    (¬(1 < b.Alpha ∧ 1 < b.Beta) → ¬(b.Alpha < 1 ∧ b.Beta < 1) →
      ¬(b.Alpha < 1 ∧ 1 ≤ b.Beta) → b.Mode = [1]) := by
  refine ⟨fun h => ?_, fun h => ?_, fun h => ?_, fun h1 h2 h3 => ?_⟩
  · rw [Beta.Mode, if_pos h]
  · rw [Beta.Mode, if_neg (by rintro ⟨c, _⟩; linarith [h.1]), if_pos h]
  · rw [Beta.Mode, if_neg (by rintro ⟨c, _⟩; linarith [h.1]),
      if_neg (by rintro ⟨_, c⟩; linarith [h.2]), if_pos h]
  · rw [Beta.Mode, if_neg h1, if_neg h2, if_neg h3]

/-- Witness for C8: Beta(2, 2) falls in the interior case with mode 1/2;
Beta(3, 1) falls in the final case with mode 1. -/
theorem beta_mode_cases_witness :
    ((1:ℚ) < 2 ∧ (1:ℚ) < 2) ∧ Beta.Mode ⟨2, 2⟩ = [1/2] ∧ Beta.Mode ⟨3, 1⟩ = [1] :=
  ⟨⟨by norm_num, by norm_num⟩,
   ((beta_mode_cases ⟨2, 2⟩).1 ⟨by norm_num, by norm_num⟩).trans (by norm_num),
   (beta_mode_cases ⟨3, 1⟩).2.2.2 (by norm_num) (by norm_num) (by norm_num)⟩

/-- C9: for both posterior families and every confidence level in (0,1), HPD
returns exactly the central credible interval, which is the quantile pair at
(1-c)/2 and 1-(1-c)/2, whatever the numeric quantile routine computes. -/
theorem hpd_equals_credible_interval (bp : BetaPosterior) (Qb : ℚ → ℚ → ℚ → ℝ)
    (np : NormalPosterior) (Qn : ℚ → ℝ) (c : ℚ) (h0 : 0 < c) (h1 : c < 1) :
    bp.HPD Qb c = bp.CredibleInterval Qb c ∧
    bp.HPD Qb c = (Qb bp.toBeta.Alpha bp.toBeta.Beta ((1 - c) / 2),
      Qb bp.toBeta.Alpha bp.toBeta.Beta (1 - (1 - c) / 2)) ∧
    np.HPD Qn c = np.CredibleInterval Qn c ∧
    np.HPD Qn c = (Qn ((1 - c) / 2), Qn (1 - (1 - c) / 2)) :=
  ⟨rfl, rfl, rfl, rfl⟩

/-- Witness for C9 at confidence 1/2 with a constant quantile routine. -/
theorem hpd_equals_credible_interval_witness :
    (0 : ℚ) < 1/2 ∧ (1 : ℚ)/2 < 1 ∧
    BetaPosterior.HPD ⟨⟨1, 1⟩⟩ (fun _ _ _ => (0 : ℝ)) (1/2) =
      BetaPosterior.CredibleInterval ⟨⟨1, 1⟩⟩ (fun _ _ _ => (0 : ℝ)) (1/2) :=
  ⟨by norm_num, by norm_num,
   (hpd_equals_credible_interval ⟨⟨1, 1⟩⟩ (fun _ _ _ => (0 : ℝ)) ⟨fnum 0, 0⟩
     (fun _ => (0 : ℝ)) (1/2) (by norm_num) (by norm_num)).1⟩

/-- C10: ComputeSummary stores the input samples unchanged and in original
positional order in Samples, computes mean, variance and standard deviation
from the unsorted input, and reads the median from a separately sorted copy,
which is a sorted permutation of the input. -/
theorem computeSummary_preserves_input (samples : List ℚ) :
    (ComputeSummary samples).Samples = samples ∧
    (ComputeSummary samples).Mean = gonumMean samples ∧
    (ComputeSummary samples).Variance = gonumVariance samples ∧
    (ComputeSummary samples).StdDev = gonumStdDev samples ∧
    (ComputeSummary samples).Median = empiricalQuantile (1/2) (sortList samples) ∧
    List.Perm (sortList samples) samples ∧
    List.Sorted (· ≤ ·) (sortList samples) :=
  ⟨rfl, rfl, rfl, rfl, rfl, List.perm_insertionSort _ _, List.sorted_insertionSort _ _⟩

/-- C2: for every NormalConjugate prior with positive Sigma and positive
KnownVariance and every non-empty data sequence, Update returns a posterior
whose mean is (mu0 divided by sigma0 squared + n times the sample mean over
v) over the posterior precision 1 over sigma0 squared + n over v, and whose
scale is the square root of the inverse posterior precision, matching direct
evaluation of these formulas. -/
theorem normalConjugate_update_formulas (nc : NormalConjugate) (data : List ℚ)
    (hs : 0 < nc.Sigma) (hv : 0 < nc.KnownVariance) (hd : data ≠ []) :
    (nc.Update data).Mu =
      fnum ((nc.Mu / (nc.Sigma * nc.Sigma) +
          (data.length : ℚ) * (data.sum / (data.length : ℚ)) / nc.KnownVariance) /
        (1 / (nc.Sigma * nc.Sigma) + (data.length : ℚ) / nc.KnownVariance)) ∧
    (nc.Update data).Sigma =
      Real.sqrt (1 / ((1 / (nc.Sigma * nc.Sigma) + (data.length : ℚ) / nc.KnownVariance) : ℝ)) := by
  have hn : (data.length : ℚ) ≠ 0 := by
    exact_mod_cast Nat.pos_iff_ne_zero.mp (List.length_pos.mpr hd)
  have hs2 : nc.Sigma * nc.Sigma ≠ 0 := by positivity
  have hv0 : nc.KnownVariance ≠ 0 := ne_of_gt hv
  have hn0 : (0:ℚ) < (data.length : ℚ) := by
    exact_mod_cast List.length_pos.mpr hd
  have htau : (0:ℚ) < 1 / (nc.Sigma * nc.Sigma) + (data.length : ℚ) * (1 / nc.KnownVariance) := by
    have h1 : (0:ℚ) < 1 / (nc.Sigma * nc.Sigma) := by positivity
    have h2 : (0:ℚ) < (data.length : ℚ) * (1 / nc.KnownVariance) := by positivity
    linarith
  have htau0 : 1 / (nc.Sigma * nc.Sigma) + (data.length : ℚ) * (1 / nc.KnownVariance) ≠ 0 :=
    ne_of_gt htau
  constructor
  · simp only [NormalConjugate.Update, fdiv, fadd, fmul, fnum, if_neg hs2, if_neg hv0,
      if_neg hn, if_neg htau0]
    congr 1
    field_simp
    ring
  · simp only [NormalConjugate.Update, fdiv, fadd, fmul, fnum, if_neg hs2, if_neg hv0,
      if_neg hn, if_neg htau0, fqToReal]
    congr 1
    push_cast
    field_simp

/-- Witness for C2: prior Normal(0, 1) with known variance 1 and data [2]
gives posterior mean 1 and posterior scale sqrt(1/2). -/
theorem normalConjugate_update_formulas_witness :
    (0:ℚ) < 1 ∧ ([2] : List ℚ) ≠ [] ∧
    ((⟨0, 1, 1⟩ : NormalConjugate).Update [2]).Mu = fnum 1 ∧
    ((⟨0, 1, 1⟩ : NormalConjugate).Update [2]).Sigma = Real.sqrt (1/2) := by
  have h := normalConjugate_update_formulas ⟨0, 1, 1⟩ [2] (by norm_num) (by norm_num) (by simp)
  refine ⟨by norm_num, by simp, ?_, ?_⟩
  · exact h.1.trans (by norm_num [fnum])
  · refine h.2.trans ?_
    norm_num

/-- C6 amended: neither operation validates empty input. For every
NormalConjugate prior, Update on empty data silently returns a posterior
whose mean is NaN (the 0/0 sample mean propagates), and ComputeSummary on
empty input yields NaN mean and variance and produces no quantiles (the
underlying gonum quantile walk is exhausted, where the library panics). -/
theorem empty_input_not_rejected (nc : NormalConjugate) :
    (nc.Update []).Mu = none ∧
    (ComputeSummary []).Mean = none ∧
    (ComputeSummary []).Median = none ∧
    (ComputeSummary []).Variance = none := by
  refine ⟨?_, ?_, ?_, ?_⟩
  · simp [NormalConjugate.Update, fdiv, fnum, fadd, fmul, fmul_none_right,
      fadd_none_right, fdiv_none_left]
  · norm_num [ComputeSummary, gonumMean, fdiv, fnum]
  · norm_num [ComputeSummary, empiricalQuantile, sortList, List.insertionSort, quantileWalk]
  · norm_num [ComputeSummary, gonumVariance, gonumMean, fdiv, fnum, fadd, fsub, fmul,
      fsub_none_right, fdiv_none_left]

/-- C6 counterexample: the prior Normal(0, 1) with known variance 1, updated
on the empty sequence, is not rejected: a posterior object is returned and
its mean is NaN; likewise ComputeSummary on the empty sequence returns a NaN
mean and no median, rather than an explicit rejection. -/
theorem empty_update_silent_nan :
    ((⟨0, 1, 1⟩ : NormalConjugate).Update []).Mu = none ∧
    (ComputeSummary []).Mean = none ∧
    (ComputeSummary []).Median = none := by
  refine ⟨?_, ?_, ?_⟩
  · simp [NormalConjugate.Update, fdiv, fnum, fadd, fmul, fmul_none_right,
      fadd_none_right, fdiv_none_left]
  · norm_num [ComputeSummary, gonumMean, fdiv, fnum]
  · norm_num [ComputeSummary, empiricalQuantile, sortList, List.insertionSort, quantileWalk]

/-- C7 amended: on a single-element input [v], ComputeSummary returns the
median and all four CI95/CI99 bounds equal to v, and a variance of NaN (the
unbiased sample variance divides by n - 1 = 0), not 0. -/
theorem computeSummary_singleton (v : ℚ) :
    (ComputeSummary [v]).Median = fnum v ∧
    (ComputeSummary [v]).CI95 = (fnum v, fnum v) ∧
    (ComputeSummary [v]).CI99 = (fnum v, fnum v) ∧
    (ComputeSummary [v]).Variance = none := by
  refine ⟨?_, ?_, ?_, ?_⟩ <;>
    norm_num [ComputeSummary, empiricalQuantile, sortList, List.insertionSort,
      List.orderedInsert, quantileWalk, gonumVariance, gonumMean, fdiv, fnum, fadd,
      fsub, fmul]

/-- C7 counterexample: on the input [5] the variance returned by
ComputeSummary is NaN, not the 0 stated by the claim (while the median is
indeed the single sample value). -/
theorem computeSummary_singleton_variance_nan :
    (ComputeSummary [(5:ℚ)]).Variance = none ∧
    (ComputeSummary [(5:ℚ)]).Variance ≠ fnum 0 ∧
    (ComputeSummary [(5:ℚ)]).Median = fnum 5 := by
  refine ⟨?_, ?_, ?_⟩ <;>
    norm_num [ComputeSummary, empiricalQuantile, sortList, List.insertionSort,
      List.orderedInsert, quantileWalk, gonumVariance, gonumMean, fdiv, fnum, fadd,
      fsub, fmul]
  exact fun c => Option.noConfusion c

set_option maxRecDepth 100000 in
lemma sortList_l100 : sortList l100 = l100 := by
  norm_num [sortList, l100, List.insertionSort, List.orderedInsert]

set_option maxRecDepth 100000 in
lemma quantile_l100_half : empiricalQuantile (1/2) l100 = fnum 50 := by
  norm_num [empiricalQuantile, l100, quantileWalk, fnum]

set_option maxRecDepth 100000 in
lemma quantile_l100_q025 : empiricalQuantile (1/40) l100 = fnum 3 := by
  norm_num [empiricalQuantile, l100, quantileWalk, fnum]

set_option maxRecDepth 100000 in
lemma quantile_l100_q975 : empiricalQuantile (39/40) l100 = fnum 98 := by
  norm_num [empiricalQuantile, l100, quantileWalk, fnum]

set_option maxRecDepth 100000 in
lemma quantile_l100_q005 : empiricalQuantile (1/200) l100 = fnum 1 := by
  norm_num [empiricalQuantile, l100, quantileWalk, fnum]

set_option maxRecDepth 100000 in
lemma quantile_l100_q995 : empiricalQuantile (199/200) l100 = fnum 100 := by
  norm_num [empiricalQuantile, l100, quantileWalk, fnum]

/-- C3 counterexample: on the input 1, 2, ..., 100 the summary median is 50,
not the 50.5 = 101/2 of linear interpolation, and the 95 percent interval is
[3, 98], not the [3.475, 97.525] = [139/40, 3901/40] of linear
interpolation: the code computes step-function empirical quantiles. -/
theorem computeSummary_l100_not_interpolated :
    (ComputeSummary l100).Median = fnum 50 ∧
    (ComputeSummary l100).Median ≠ fnum (101/2) ∧
    (ComputeSummary l100).CI95 = (fnum 3, fnum 98) ∧
    (ComputeSummary l100).CI95 ≠ (fnum (139/40), fnum (3901/40)) := by
  have hm : (ComputeSummary l100).Median = fnum 50 := by
    show empiricalQuantile (1/2) (sortList l100) = fnum 50
    rw [sortList_l100, quantile_l100_half]
  have hc : (ComputeSummary l100).CI95 = (fnum 3, fnum 98) := by
    show (empiricalQuantile (1/40) (sortList l100),
      empiricalQuantile (39/40) (sortList l100)) = (fnum 3, fnum 98)
    rw [sortList_l100, quantile_l100_q025, quantile_l100_q975]
  refine ⟨hm, ?_, hc, ?_⟩
  · rw [hm]
    norm_num [fnum, Option.some.injEq]
  · rw [hc]
    norm_num [fnum, Prod.mk.injEq, Option.some.injEq]

/-- C3 amended: ComputeSummary computes the median and the four interval
bounds as inverse-empirical-CDF step quantiles (the gonum Empirical cumulant
kind, no interpolation) at probabilities 0.5, 0.025, 0.975, 0.005, 0.995 of
the sorted samples; on the input 1, 2, ..., 100 this yields median 50,
CI95 = [3, 98] and CI99 = [1, 100]. -/
theorem computeSummary_empirical_step_quantiles :
    (∀ samples : List ℚ,
      (ComputeSummary samples).Median = empiricalQuantile (1/2) (sortList samples) ∧
      (ComputeSummary samples).CI95 =
        (empiricalQuantile (1/40) (sortList samples),
         empiricalQuantile (39/40) (sortList samples)) ∧
      (ComputeSummary samples).CI99 =
        (empiricalQuantile (1/200) (sortList samples),
         empiricalQuantile (199/200) (sortList samples))) ∧
    (ComputeSummary l100).Median = fnum 50 ∧
    (ComputeSummary l100).CI95 = (fnum 3, fnum 98) ∧
    (ComputeSummary l100).CI99 = (fnum 1, fnum 100) := by
  refine ⟨fun samples => ⟨rfl, rfl, rfl⟩, ?_, ?_, ?_⟩
  · show empiricalQuantile (1/2) (sortList l100) = fnum 50
    rw [sortList_l100, quantile_l100_half]
  · show (empiricalQuantile (1/40) (sortList l100),
      empiricalQuantile (39/40) (sortList l100)) = (fnum 3, fnum 98)
    rw [sortList_l100, quantile_l100_q025, quantile_l100_q975]
  · show (empiricalQuantile (1/200) (sortList l100),
      empiricalQuantile (199/200) (sortList l100)) = (fnum 1, fnum 100)
    rw [sortList_l100, quantile_l100_q005, quantile_l100_q995]
